import Mathlib

/-!
Verification of the template-field placement and batch PDF generation logic of
the PDF-editor repository (src/src/components/PDFViewer.tsx).

The component state and the three operations that the claims concern —
`onDrop` (template upload), `handleTemplateFieldAdd` (click-to-place field)
and `generatePDFs` (batch stamping) — are embedded shallowly:

* Coordinates and page sizes are rationals (`ℚ`); the source arithmetic is
  plain +, -, *, / on JS numbers, reproduced exactly.
* A CSV row (produced by Papa.parse with a header row) is an ordered list of
  (column header, string value) pairs: JS object key insertion order is the
  list order, and `row[k]` is `rowLookup`.
* The pdf-lib document model is abstracted by `PdfEnv`: `parse` maps the raw
  template bytes to the list of page sizes (`none` models `PDFDocument.load`
  throwing), `embedOk` models `embedFont StandardFonts.Helvetica` throwing,
  `drawOk t` models `drawText t …` throwing (pdf-lib throws when `t` cannot
  be encoded in the font), `saveOk` models `save()` throwing.
* The observable effects of `generatePDFs` are collected in `GenResult`:
  the downloads triggered (`outputs`, in order, with filename and the draw
  operations stamped into that document), the `alert` calls raised, the
  number of `PDFDocument.load` calls, and the number of `drawText` calls.
-/

namespace PDFEditor

/-- A template field binding, as in the `TemplateField` interface of the
source: percentage coordinates plus a field name. -/
structure TemplateField where
  x : ℚ
  y : ℚ
  fieldName : String
deriving DecidableEq

/-- One CSV row: column headers mapped to string values, in key insertion
order (Papa.parse with `header: true`). -/
abbrev Row := List (String × String)

/-- JS property access `row[k]`: the value of the first binding of key `k`,
`none` when the key is absent (JS `undefined`). -/
def rowLookup (row : Row) (k : String) : Option String :=
  (row.find? (fun p => p.1 == k)).map Prod.snd

/-- The row with every binding of column `k` removed: the comparison object
for the claim that a falsy stored value behaves exactly as an absent
column. -/
def removeColumn (row : Row) (k : String) : Row :=
  row.filter (fun p => p.1 != k)

/-- The JS expression `v || \x7b\x7d` specialised to this code,
`row[field.fieldName] || ""`: an absent value (`undefined`) and a falsy
string (only `""` is falsy) both coerce to the empty string. -/
def jsOrEmpty (v : Option String) : String :=
  match v with
  | none => ""
  | some s => if s = "" then "" else s

/-- The text stamped for a field on a row: source line 96,
`const text = row[field.fieldName] || ''`. -/
def stampText (row : Row) (k : String) : String :=
  jsOrEmpty (rowLookup row k)

/-- One `drawText` call as performed by the source: the text, the absolute
draw coordinates and the font size. -/
structure DrawOp where
  text : String
  x : ℚ
  y : ℚ
  size : ℕ
deriving DecidableEq

/-- The `drawText` call issued for field `f` on row `row`, on a first page of
size `w × h`: source lines 96-103,
`x: (field.x / 100) * width, y: height - (field.y / 100) * height, size: 12`. -/
def mkDrawOp (w h : ℚ) (row : Row) (f : TemplateField) : DrawOp :=
  { text := stampText row f.fieldName
  , x := f.x / 100 * w
  , y := h - f.y / 100 * h
  , size := 12 }

/-- All draw operations stamped into one row's document, in field registry
order (the inner `for (const field of templateFields)` loop). -/
def stampDraws (w h : ℚ) (fields : List TemplateField) (row : Row) : List DrawOp :=
  fields.map (mkDrawOp w h row)

/-- The value of the row under its first column key, source line 112:
`row[Object.keys(row)[0]]`. On an empty row `Object.keys(row)[0]` is
`undefined`, `row[undefined]` is `undefined`, and the template literal
stringifies it to `"undefined"`. -/
def firstColumnValue (row : Row) : String :=
  match row with
  | [] => "undefined"
  | p :: _ => p.2

/-- The download filename for a row, source line 112:
`generated_<first column value>.pdf`. -/
def fileName (row : Row) : String :=
  "generated_" ++ firstColumnValue row ++ ".pdf"

/-- The download triggered for one row: its filename and the draw operations
contained in the saved document. -/
structure Output where
  name : String
  draws : List DrawOp
deriving DecidableEq

/-- The finished document downloaded for one row. -/
def mkOutput (w h : ℚ) (fields : List TemplateField) (row : Row) : Output :=
  { name := fileName row, draws := stampDraws w h fields row }

/-- The abstract pdf-lib environment: which of the fallible document
operations succeed, and what `PDFDocument.load` yields on the template
bytes (the list of page sizes of the loaded document). -/
structure PdfEnv where
  parse : List ℕ → Option (List (ℚ × ℚ))
  embedOk : Bool
  drawOk : String → Bool
  saveOk : Bool

/-- A user-facing notice (`alert`): the precondition notice of line 79 or the
failure notice of line 118. -/
inductive Alert where
  | precondition
  | failure
deriving DecidableEq

/-- Whether processing one row runs to completion: every field's text must
draw (per-draw `embedFont` at line 101 and `drawText` at line 97) and the
document must save (line 107). -/
def rowOk (env : PdfEnv) (fields : List TemplateField) (row : Row) : Bool :=
  fields.all (fun f => env.embedOk && env.drawOk (stampText row f.fieldName)) && env.saveOk

/-- How many `drawText` calls complete on a row before the row's first
failure (all of them when the row only fails at `save`). -/
def rowDrawCalls (env : PdfEnv) (fields : List TemplateField) (row : Row) : ℕ :=
  (fields.takeWhile (fun f => env.embedOk && env.drawOk (stampText row f.fieldName))).length

/-- Accumulated effects of the `for (const row of csvData)` loop. -/
structure LoopResult where
  outputs : List Output
  loads : ℕ
  drawCalls : ℕ
  failed : Bool
deriving DecidableEq

/-- The row loop of `generatePDFs` (source lines 90-115): each row loads a
fresh document from the template bytes (line 91) — this load repeats the
initial successful load of the same bytes, so it cannot fail — stamps every
field, saves and downloads. The first exception inside a row stops the whole
loop (the `try` wraps the entire loop); a failing row triggers no download. -/
def processRows (env : PdfEnv) (w h : ℚ) (fields : List TemplateField) :
    List Row → LoopResult
  | [] => ⟨[], 0, 0, false⟩
  | row :: rest =>
    if rowOk env fields row then
      ⟨mkOutput w h fields row :: (processRows env w h fields rest).outputs,
        (processRows env w h fields rest).loads + 1,
        fields.length + (processRows env w h fields rest).drawCalls,
        (processRows env w h fields rest).failed⟩
    else
      ⟨[], 1, rowDrawCalls env fields row, true⟩

/-- Observable effects of one `generatePDFs` call. -/
structure GenResult where
  outputs : List Output
  alerts : List Alert
  loads : ℕ
  drawCalls : ℕ
deriving DecidableEq

/-- The `generatePDFs` operation, source lines 77-120.

Guard (line 78): `!templatePdfBytes || !csvData.length || !templateFields.length`
— the state field is `ArrayBuffer | null`, so `!templatePdfBytes` is JS-truthy
exactly when no template buffer is stored — alerts the precondition notice
and returns.

Then, inside `try`: load the template (line 84), embed the font (line 85),
take page 0 and its size (lines 86-87; a document with no pages makes
`getPages()[0]` `undefined` and `page.getSize()` throw), and run the row
loop. Any exception lands in the single `catch`, which raises exactly one
failure notice. -/
def generatePDFs (env : PdfEnv) (templatePdfBytes : Option (List ℕ))
    (csvData : List Row) (templateFields : List TemplateField) : GenResult :=
  match templatePdfBytes with
  | none => ⟨[], [Alert.precondition], 0, 0⟩
  | some bytes =>
    if csvData.isEmpty || templateFields.isEmpty then
      ⟨[], [Alert.precondition], 0, 0⟩
    else
      match env.parse bytes with
      | none => ⟨[], [Alert.failure], 1, 0⟩
      | some pages =>
        if env.embedOk then
          match pages with
          | [] => ⟨[], [Alert.failure], 1, 0⟩
          | wh :: _ =>
            ⟨(processRows env wh.1 wh.2 templateFields csvData).outputs,
              if (processRows env wh.1 wh.2 templateFields csvData).failed then
                [Alert.failure]
              else [],
              1 + (processRows env wh.1 wh.2 templateFields csvData).loads,
              (processRows env wh.1 wh.2 templateFields csvData).drawCalls⟩
        else ⟨[], [Alert.failure], 1, 0⟩

/-- A page click event: pointer position and the bounding rectangle returned
by `getBoundingClientRect()`. -/
structure ClickEvent where
  clientX : ℚ
  clientY : ℚ
  rectLeft : ℚ
  rectTop : ℚ
  rectWidth : ℚ
  rectHeight : ℚ
deriving DecidableEq

/-- The percentage coordinates computed for a click, source lines 68-69:
`x = ((event.clientX - rect.left) / rect.width) * 100` and likewise for y. -/
def clickXY (ev : ClickEvent) : ℚ × ℚ :=
  ( (ev.clientX - ev.rectLeft) / ev.rectWidth * 100
  , (ev.clientY - ev.rectTop) / ev.rectHeight * 100 )

/-- The `handleTemplateFieldAdd` handler, source lines 64-75, as a function
from the current field list to the new one. `promptResult` is what the
blocking `prompt` returns (`none` = cancelled); the append happens only for
a truthy (non-null, non-empty) name. Outside template mode the handler
returns at line 65 without touching the list. -/
def handleTemplateFieldAdd (isTemplateMode : Bool) (fields : List TemplateField)
    (ev : ClickEvent) (promptResult : Option String) : List TemplateField :=
  if isTemplateMode then
    match promptResult with
    | none => fields
    | some name =>
      if name = "" then fields
      else fields ++ [⟨(clickXY ev).1, (clickXY ev).2, name⟩]
  else fields

/-- The component state relevant to the claims: the five `useState` cells of
`PDFViewer`. -/
structure ViewerState where
  pdfFile : Option String
  templateFields : List TemplateField
  csvData : List Row
  isTemplateMode : Bool
  templatePdfBytes : Option (List ℕ)
deriving DecidableEq

/-- A file handed to the dropzone: its object URL and its raw bytes. -/
structure UploadedFile where
  url : String
  bytes : List ℕ
deriving DecidableEq

/-- The dropzone `onDrop` handler, source lines 37-49: the first accepted
file becomes the displayed document, and its bytes are stored as the
template buffer only when template mode is active. -/
def onDrop (s : ViewerState) (acceptedFiles : List UploadedFile) : ViewerState :=
  match acceptedFiles with
  | [] => s
  | file :: _ =>
    let s1 := { s with pdfFile := some file.url }
    if s1.isTemplateMode then { s1 with templatePdfBytes := some file.bytes }
    else s1

/-- A click on the rendered page, source line 178: the `onClick` prop is
`handleTemplateFieldAdd` only while template mode is active, otherwise
`undefined` (no handler runs at all). -/
def pageClick (s : ViewerState) (ev : ClickEvent) (promptResult : Option String) :
    ViewerState :=
  if s.isTemplateMode then
    { s with templateFields :=
        handleTemplateFieldAdd s.isTemplateMode s.templateFields ev promptResult }
  else s

/-- A pdf-lib environment in which every operation succeeds and the template
has one 612 × 792 page. -/
def testEnv : PdfEnv :=
  ⟨fun _ => some [(612, 792)], true, fun _ => true, true⟩

/-- A pdf-lib environment in which drawing the text `"BAD"` throws and
everything else succeeds. -/
def testBadDrawEnv : PdfEnv :=
  ⟨fun _ => some [(612, 792)], true, fun t => t != "BAD", true⟩

/-- A one-field registry: `name` at the page centre. -/
def testFields : List TemplateField := [⟨50, 50, "name"⟩]

/-- Two CSV rows with a single `name` column. -/
def testRows : List Row := [[("name", "Alice")], [("name", "Bob")]]

/-- Three rows whose middle row stamps the undrawable text `"BAD"`. -/
def testRowsBad : List Row :=
  [[("name", "Alice")], [("name", "BAD")], [("name", "Carol")]]

/-- A row without the `name` column. -/
def testRowsMissing : List Row := [[("other", "x")]]

/-- A state outside template mode that already holds a stored template
buffer. -/
def testState : ViewerState := ⟨some "doc.pdf", [], [], false, some [1, 2]⟩

/-- A click at (50, 60) inside a 100 × 200 page box at the origin. -/
def testEvent : ClickEvent := ⟨50, 60, 0, 0, 100, 200⟩

/-! ## Helper lemmas -/

theorem rowLookup_cons (p : String × String) (t : Row) (k : String) :
    rowLookup (p :: t) k = if p.1 = k then some p.2 else rowLookup t k := by
  rw [rowLookup, List.find?_cons]
  by_cases h : p.1 = k
  · simp [h]
  · have hb : (p.1 == k) = false := beq_eq_false_iff_ne.mpr h
    simp [hb, h, rowLookup]

theorem removeColumn_cons (p : String × String) (t : Row) (k : String) :
    removeColumn (p :: t) k
      = if p.1 = k then removeColumn t k else p :: removeColumn t k := by
  rw [removeColumn, List.filter_cons]
  by_cases h : p.1 = k <;> simp [removeColumn, h]

theorem rowLookup_removeColumn_self (r : Row) (k : String) :
    rowLookup (removeColumn r k) k = none := by
  induction r with
  | nil => rfl
  | cons p t ih =>
    rw [removeColumn_cons]
    by_cases h : p.1 = k
    · simpa [h] using ih
    · rw [if_neg h, rowLookup_cons, if_neg h]
      exact ih

theorem rowLookup_removeColumn_ne (r : Row) (k name : String) (h : name ≠ k) :
    rowLookup (removeColumn r k) name = rowLookup r name := by
  induction r with
  | nil => rfl
  | cons p t ih =>
    rw [removeColumn_cons, rowLookup_cons]
    by_cases hp : p.1 = k
    · rw [if_pos hp, ih, if_neg]
      rw [hp]
      exact fun e => h e.symm
    · rw [if_neg hp, rowLookup_cons]
      by_cases hn : p.1 = name
      · rw [if_pos hn, if_pos hn]
      · rw [if_neg hn, if_neg hn, ih]

theorem stampText_removeColumn (r : Row) (k : String) (hk : rowLookup r k = some "")
    (name : String) : stampText (removeColumn r k) name = stampText r name := by
  by_cases h : name = k
  · subst h
    rw [stampText, stampText, hk, rowLookup_removeColumn_self]
    rfl
  · rw [stampText, stampText, rowLookup_removeColumn_ne r k name h]

/-! ## Claim theorems about the field registry and the component state -/

/-- C6: `handleTemplateFieldAdd` records the field at
`x = 100 * (clickX - boxLeft) / boxWidth`, `y = 100 * (clickY - boxTop) / boxHeight`,
and for a click strictly inside the bounding box both coordinates lie in
[0, 100]. -/
theorem C6_addField_formula_and_bounds (ev : ClickEvent)
    (fields : List TemplateField) (name : String) (hname : name ≠ "")
    (hx1 : ev.rectLeft < ev.clientX)
    (hx2 : ev.clientX < ev.rectLeft + ev.rectWidth)
    (hy1 : ev.rectTop < ev.clientY)
    (hy2 : ev.clientY < ev.rectTop + ev.rectHeight) :
    handleTemplateFieldAdd true fields ev (some name)
      = fields ++ [⟨100 * (ev.clientX - ev.rectLeft) / ev.rectWidth,
          100 * (ev.clientY - ev.rectTop) / ev.rectHeight, name⟩] ∧
    0 ≤ (clickXY ev).1 ∧ (clickXY ev).1 ≤ 100 ∧
    0 ≤ (clickXY ev).2 ∧ (clickXY ev).2 ≤ 100 := by
  have hw : 0 < ev.rectWidth := by linarith
  have hh : 0 < ev.rectHeight := by linarith
  have hxval : (clickXY ev).1 = 100 * (ev.clientX - ev.rectLeft) / ev.rectWidth := by
    rw [clickXY]; ring
  have hyval : (clickXY ev).2 = 100 * (ev.clientY - ev.rectTop) / ev.rectHeight := by
    rw [clickXY]; ring
  refine ⟨?_, ?_, ?_, ?_, ?_⟩
  · show (if name = "" then fields
      else fields ++ [⟨(clickXY ev).1, (clickXY ev).2, name⟩]) = _
    rw [if_neg hname, hxval, hyval]
  · rw [hxval]
    exact div_nonneg (by linarith) hw.le
  · rw [hxval, div_le_iff₀ hw]
    linarith
  · rw [hyval]
    exact div_nonneg (by linarith) hh.le
  · rw [hyval, div_le_iff₀ hh]
    linarith

/-- C8: outside template mode a page click never changes the field list:
both the conditional `onClick` wiring and the handler's own guard leave the
registry untouched. -/
theorem C8_click_noop_outside_template_mode (s : ViewerState) (ev : ClickEvent)
    (p : Option String) (h : s.isTemplateMode = false) :
    (pageClick s ev p).templateFields = s.templateFields ∧
    handleTemplateFieldAdd s.isTemplateMode s.templateFields ev p
      = s.templateFields := by
  constructor
  · rw [pageClick]
    simp [h]
  · rw [h]
    rfl

/-- C9: uploading a PDF while template mode is inactive leaves the stored
template bytes unchanged. -/
theorem C9_upload_outside_template_mode_keeps_bytes (s : ViewerState)
    (files : List UploadedFile) (h : s.isTemplateMode = false) :
    (onDrop s files).templatePdfBytes = s.templatePdfBytes := by
  cases files with
  | nil => rfl
  | cons f t =>
    rw [onDrop]
    simp [h]

/-- C10: a column present with the falsy value `""` stamps the empty string,
and the draw operations of the whole row are identical to those of the row
with that column absent. -/
theorem C10_falsy_value_equals_missing (w h : ℚ) (fields : List TemplateField)
    (r : Row) (k : String) (hk : rowLookup r k = some "") :
    stampText r k = "" ∧
    stampDraws w h fields r = stampDraws w h fields (removeColumn r k) := by
  constructor
  · rw [stampText, hk]; rfl
  · have hfun : ∀ f : TemplateField,
        mkDrawOp w h r f = mkDrawOp w h (removeColumn r k) f := by
      intro f
      rw [mkDrawOp, mkDrawOp, stampText_removeColumn r k hk]
    rw [stampDraws, stampDraws]
    exact List.map_congr_left (fun f _ => hfun f)

/-! ## Run lemmas for the batch stamper -/

theorem processRows_all_ok (env : PdfEnv) (w h : ℚ) (fields : List TemplateField) :
    ∀ rows : List Row, (∀ r ∈ rows, rowOk env fields r = true) →
      processRows env w h fields rows
        = ⟨rows.map (mkOutput w h fields), rows.length,
            rows.length * fields.length, false⟩
  | [], _ => by simp [processRows]
  | row :: rest, hall => by
    have hok : rowOk env fields row = true := hall row (List.mem_cons_self _ _)
    have ih := processRows_all_ok env w h fields rest
      (fun r hr => hall r (List.mem_cons_of_mem _ hr))
    rw [processRows, if_pos hok, ih]
    simp only [List.map_cons, List.length_cons, LoopResult.mk.injEq, true_and,
      and_true]
    ring

theorem processRows_first_fail (env : PdfEnv) (w h : ℚ)
    (fields : List TemplateField) (bad : Row) (post : List Row)
    (hbad : rowOk env fields bad = false) :
    ∀ pre : List Row, (∀ r ∈ pre, rowOk env fields r = true) →
      processRows env w h fields (pre ++ bad :: post)
        = ⟨pre.map (mkOutput w h fields), pre.length + 1,
            pre.length * fields.length + rowDrawCalls env fields bad, true⟩
  | [], _ => by
    rw [List.nil_append, processRows, if_neg (by simp [hbad])]
    simp
  | row :: pre, hall => by
    have hok : rowOk env fields row = true := hall row (List.mem_cons_self _ _)
    have ih := processRows_first_fail env w h fields bad post hbad pre
      (fun r hr => hall r (List.mem_cons_of_mem _ hr))
    rw [List.cons_append, processRows, if_pos hok, ih]
    simp only [List.map_cons, List.length_cons, LoopResult.mk.injEq, true_and,
      and_true]
    ring

theorem generatePDFs_run (env : PdfEnv) (bytes : List ℕ) (w h : ℚ)
    (ps : List (ℚ × ℚ)) (rows : List Row) (fields : List TemplateField)
    (hrows : rows ≠ []) (hfields : fields ≠ [])
    (hparse : env.parse bytes = some ((w, h) :: ps))
    (hembed : env.embedOk = true) :
    generatePDFs env (some bytes) rows fields
      = ⟨(processRows env w h fields rows).outputs,
          if (processRows env w h fields rows).failed then [Alert.failure]
          else [],
          1 + (processRows env w h fields rows).loads,
          (processRows env w h fields rows).drawCalls⟩ := by
  obtain ⟨r0, rtl, rfl⟩ := List.exists_cons_of_ne_nil hrows
  obtain ⟨f0, ftl, rfl⟩ := List.exists_cons_of_ne_nil hfields
  simp [generatePDFs, hparse, hembed]

theorem generatePDFs_happy (env : PdfEnv) (bytes : List ℕ) (w h : ℚ)
    (ps : List (ℚ × ℚ)) (rows : List Row) (fields : List TemplateField)
    (hrows : rows ≠ []) (hfields : fields ≠ [])
    (hparse : env.parse bytes = some ((w, h) :: ps))
    (hembed : env.embedOk = true)
    (hok : ∀ r ∈ rows, rowOk env fields r = true) :
    generatePDFs env (some bytes) rows fields
      = ⟨rows.map (mkOutput w h fields), [], 1 + rows.length,
          rows.length * fields.length⟩ := by
  rw [generatePDFs_run env bytes w h ps rows fields hrows hfields hparse hembed,
    processRows_all_ok env w h fields rows hok]
  rfl

theorem generatePDFs_first_fail (env : PdfEnv) (bytes : List ℕ) (w h : ℚ)
    (ps : List (ℚ × ℚ)) (fields : List TemplateField) (pre : List Row)
    (bad : Row) (post : List Row) (hfields : fields ≠ [])
    (hparse : env.parse bytes = some ((w, h) :: ps))
    (hembed : env.embedOk = true)
    (hpre : ∀ r ∈ pre, rowOk env fields r = true)
    (hbad : rowOk env fields bad = false) :
    generatePDFs env (some bytes) (pre ++ bad :: post) fields
      = ⟨pre.map (mkOutput w h fields), [Alert.failure], 1 + (pre.length + 1),
          pre.length * fields.length + rowDrawCalls env fields bad⟩ := by
  have hne : pre ++ bad :: post ≠ [] := by cases pre <;> simp
  rw [generatePDFs_run env bytes w h ps _ fields hne hfields hparse hembed,
    processRows_first_fail env w h fields bad post hbad pre hpre]
  rfl

/-! ## Claim theorems about the batch stamper -/

/-- C1: on a successful run the loop performs one fresh `PDFDocument.load`
of the template bytes per row (plus the initial size-probing load), and the
i-th output document contains exactly the draw operations computed from the
i-th row alone — so one row's stamped text never reaches another row's
document. -/
theorem C1_fresh_document_per_row (env : PdfEnv) (bytes : List ℕ) (w h : ℚ)
    (ps : List (ℚ × ℚ)) (rows : List Row) (fields : List TemplateField)
    (hrows : rows ≠ []) (hfields : fields ≠ [])
    (hparse : env.parse bytes = some ((w, h) :: ps))
    (hembed : env.embedOk = true)
    (hok : ∀ r ∈ rows, rowOk env fields r = true) :
    (generatePDFs env (some bytes) rows fields).loads = rows.length + 1 ∧
    ∀ i : ℕ,
      ((generatePDFs env (some bytes) rows fields).outputs[i]?).map Output.draws
        = (rows[i]?).map (stampDraws w h fields) := by
  rw [generatePDFs_happy env bytes w h ps rows fields hrows hfields hparse
    hembed hok]
  constructor
  · exact Nat.add_comm 1 rows.length
  · intro i
    show ((rows.map (mkOutput w h fields))[i]?).map Output.draws = _
    rw [List.getElem?_map, Option.map_map]
    rfl

/-- C2: every stamped field is drawn at `drawX = (field.x / 100) * width`,
`drawY = height - (field.y / 100) * height` on the first page's size, and a
field at x = 50, y = 50 lands at the page centre (w / 2, h / 2) — the y-flip
makes `h - 0.5 h = 0.5 h`. -/
theorem C2_draw_position (env : PdfEnv) (bytes : List ℕ) (w h : ℚ)
    (ps : List (ℚ × ℚ)) (rows : List Row) (fields : List TemplateField)
    (hrows : rows ≠ []) (hfields : fields ≠ [])
    (hparse : env.parse bytes = some ((w, h) :: ps))
    (hembed : env.embedOk = true)
    (hok : ∀ r ∈ rows, rowOk env fields r = true)
    (i j : ℕ) (r : Row) (f : TemplateField)
    (hi : rows[i]? = some r) (hj : fields[j]? = some f) :
    ∃ out : Output,
      (generatePDFs env (some bytes) rows fields).outputs[i]? = some out ∧
      out.draws[j]? = some (mkDrawOp w h r f) ∧
      (mkDrawOp w h r f).x = f.x / 100 * w ∧
      (mkDrawOp w h r f).y = h - f.y / 100 * h ∧
      (f.x = 50 → (mkDrawOp w h r f).x = w / 2) ∧
      (f.y = 50 → (mkDrawOp w h r f).y = h - h / 2) := by
  refine ⟨mkOutput w h fields r, ?_, ?_, rfl, rfl, ?_, ?_⟩
  · rw [generatePDFs_happy env bytes w h ps rows fields hrows hfields hparse
      hembed hok]
    show (rows.map (mkOutput w h fields))[i]? = _
    rw [List.getElem?_map, hi]
    rfl
  · show (stampDraws w h fields r)[j]? = _
    rw [stampDraws, List.getElem?_map, hj]
    rfl
  · intro h50
    show f.x / 100 * w = w / 2
    rw [h50]
    ring
  · intro h50
    show h - f.y / 100 * h = h - h / 2
    rw [h50]
    ring

/-- C3: when no template buffer is stored, or the field list is empty, or
the row list is empty, `generatePDFs` raises the precondition notice and
does nothing: no `PDFDocument.load`, no `drawText`, no download. -/
theorem C3_precondition_no_work (env : PdfEnv) (tb : Option (List ℕ))
    (rows : List Row) (fields : List TemplateField)
    (h : tb = none ∨ rows = [] ∨ fields = []) :
    generatePDFs env tb rows fields = ⟨[], [Alert.precondition], 0, 0⟩ := by
  rcases h with h | h | h
  · subst h; rfl
  · subst h
    cases tb with
    | none => rfl
    | some bytes => simp [generatePDFs]
  · subst h
    cases tb with
    | none => rfl
    | some bytes => simp [generatePDFs]

/-- C4: a thrown exception aborts the whole batch with exactly one failure
notice — whether the template fails to load, the font fails to embed, or a
row fails while drawing or saving: in the last case the rows before the
failing one are the only ones downloaded and the rows after it are never
even loaded (loads stop at the failing row). -/
theorem C4_failure_aborts_batch (env : PdfEnv) (bytes : List ℕ)
    (rows : List Row) (fields : List TemplateField)
    (hrows : rows ≠ []) (hfields : fields ≠ []) :
    (env.parse bytes = none →
      generatePDFs env (some bytes) rows fields
        = ⟨[], [Alert.failure], 1, 0⟩) ∧
    (∀ pages, env.parse bytes = some pages → env.embedOk = false →
      generatePDFs env (some bytes) rows fields
        = ⟨[], [Alert.failure], 1, 0⟩) ∧
    (∀ (w h : ℚ) (ps : List (ℚ × ℚ)) (pre : List Row) (bad : Row)
        (post : List Row),
      env.parse bytes = some ((w, h) :: ps) → env.embedOk = true →
      rows = pre ++ bad :: post →
      (∀ r ∈ pre, rowOk env fields r = true) →
      rowOk env fields bad = false →
      generatePDFs env (some bytes) rows fields
        = ⟨pre.map (mkOutput w h fields), [Alert.failure], 1 + (pre.length + 1),
            pre.length * fields.length + rowDrawCalls env fields bad⟩) := by
  obtain ⟨r0, rtl, hrtl⟩ := List.exists_cons_of_ne_nil hrows
  obtain ⟨f0, ftl, hftl⟩ := List.exists_cons_of_ne_nil hfields
  refine ⟨?_, ?_, ?_⟩
  · intro hparse
    subst hrtl
    subst hftl
    simp [generatePDFs, hparse]
  · intro pages hparse hembed
    subst hrtl
    subst hftl
    simp [generatePDFs, hparse, hembed]
  · intro w h ps pre bad post hparse hembed hsplit hpre hbad
    subst hsplit
    exact generatePDFs_first_fail env bytes w h ps fields pre bad post
      hfields hparse hembed hpre hbad

/-- C5: a field whose name is absent from a row is stamped as the empty
string at the field's position, and the batch still succeeds with no
failure notice. -/
theorem C5_missing_column_blank (env : PdfEnv) (bytes : List ℕ) (w h : ℚ)
    (ps : List (ℚ × ℚ)) (rows : List Row) (fields : List TemplateField)
    (hrows : rows ≠ []) (hfields : fields ≠ [])
    (hparse : env.parse bytes = some ((w, h) :: ps))
    (hembed : env.embedOk = true)
    (hok : ∀ r ∈ rows, rowOk env fields r = true)
    (i j : ℕ) (r : Row) (f : TemplateField)
    (hi : rows[i]? = some r) (hj : fields[j]? = some f)
    (hmiss : rowLookup r f.fieldName = none) :
    (generatePDFs env (some bytes) rows fields).alerts = [] ∧
    ∃ out : Output,
      (generatePDFs env (some bytes) rows fields).outputs[i]? = some out ∧
      out.draws[j]? = some ⟨"", f.x / 100 * w, h - f.y / 100 * h, 12⟩ := by
  rw [generatePDFs_happy env bytes w h ps rows fields hrows hfields hparse
    hembed hok]
  refine ⟨rfl, mkOutput w h fields r, ?_, ?_⟩
  · show (rows.map (mkOutput w h fields))[i]? = _
    rw [List.getElem?_map, hi]
    rfl
  · show (stampDraws w h fields r)[j]? = _
    rw [stampDraws, List.getElem?_map, hj]
    show some (mkDrawOp w h r f) = _
    rw [mkDrawOp, stampText, hmiss]
    rfl

/-- C7: a successful run downloads exactly one document per row, in row
order, named `generated_<value under the row's first column key>.pdf`. -/
theorem C7_one_output_per_row_named (env : PdfEnv) (bytes : List ℕ) (w h : ℚ)
    (ps : List (ℚ × ℚ)) (rows : List Row) (fields : List TemplateField)
    (hrows : rows ≠ []) (hfields : fields ≠ [])
    (hparse : env.parse bytes = some ((w, h) :: ps))
    (hembed : env.embedOk = true)
    (hok : ∀ r ∈ rows, rowOk env fields r = true)
    (_hne : ∀ r ∈ rows, r ≠ []) :
    (generatePDFs env (some bytes) rows fields).outputs.length = rows.length ∧
    (generatePDFs env (some bytes) rows fields).outputs.map Output.name
      = rows.map (fun r => "generated_" ++ firstColumnValue r ++ ".pdf") := by
  rw [generatePDFs_happy env bytes w h ps rows fields hrows hfields hparse
    hembed hok]
  constructor
  · show (rows.map (mkOutput w h fields)).length = rows.length
    rw [List.length_map]
  · show (rows.map (mkOutput w h fields)).map Output.name = _
    rw [List.map_map]
    rfl

/-! ## Concrete witnesses -/

theorem C1_fresh_document_per_row_witness :
    (generatePDFs testEnv (some [0]) testRows testFields).loads
        = testRows.length + 1 ∧
    ∀ i : ℕ,
      ((generatePDFs testEnv (some [0]) testRows testFields).outputs[i]?).map
          Output.draws
        = (testRows[i]?).map (stampDraws 612 792 testFields) :=
  C1_fresh_document_per_row testEnv [0] 612 792 [] testRows testFields
    (by decide) (by decide) rfl rfl (by decide)

theorem C2_draw_position_witness :
    ∃ out : Output,
      (generatePDFs testEnv (some [0]) testRows testFields).outputs[0]?
          = some out ∧
      out.draws[0]? = some (mkDrawOp 612 792 [("name", "Alice")] ⟨50, 50, "name"⟩) ∧
      (mkDrawOp 612 792 [("name", "Alice")] ⟨50, 50, "name"⟩).x
          = (⟨50, 50, "name"⟩ : TemplateField).x / 100 * 612 ∧
      (mkDrawOp 612 792 [("name", "Alice")] ⟨50, 50, "name"⟩).y
          = 792 - (⟨50, 50, "name"⟩ : TemplateField).y / 100 * 792 ∧
      ((⟨50, 50, "name"⟩ : TemplateField).x = 50 →
        (mkDrawOp 612 792 [("name", "Alice")] ⟨50, 50, "name"⟩).x = 612 / 2) ∧
      ((⟨50, 50, "name"⟩ : TemplateField).y = 50 →
        (mkDrawOp 612 792 [("name", "Alice")] ⟨50, 50, "name"⟩).y
          = 792 - 792 / 2) :=
  C2_draw_position testEnv [0] 612 792 [] testRows testFields
    (by decide) (by decide) rfl rfl (by decide) 0 0 [("name", "Alice")]
    ⟨50, 50, "name"⟩ rfl rfl

theorem C3_precondition_no_work_witness :
    generatePDFs testEnv none testRows testFields
      = ⟨[], [Alert.precondition], 0, 0⟩ :=
  C3_precondition_no_work testEnv none testRows testFields (Or.inl rfl)

theorem C4_failure_aborts_batch_witness :
    generatePDFs testBadDrawEnv (some [0]) testRowsBad testFields
      = ⟨[[("name", "Alice")]].map (mkOutput 612 792 testFields),
          [Alert.failure], 1 + ([[("name", "Alice")]].length + 1),
          [[("name", "Alice")]].length * testFields.length
            + rowDrawCalls testBadDrawEnv testFields [("name", "BAD")]⟩ :=
  (C4_failure_aborts_batch testBadDrawEnv [0] testRowsBad testFields
      (by decide) (by decide)).2.2 612 792 [] [[("name", "Alice")]]
    [("name", "BAD")] [[("name", "Carol")]] rfl rfl rfl (by decide) (by decide)

theorem C5_missing_column_blank_witness :
    (generatePDFs testEnv (some [0]) testRowsMissing testFields).alerts = [] ∧
    ∃ out : Output,
      (generatePDFs testEnv (some [0]) testRowsMissing testFields).outputs[0]?
          = some out ∧
      out.draws[0]?
        = some ⟨"", (⟨50, 50, "name"⟩ : TemplateField).x / 100 * 612,
            792 - (⟨50, 50, "name"⟩ : TemplateField).y / 100 * 792, 12⟩ :=
  C5_missing_column_blank testEnv [0] 612 792 [] testRowsMissing testFields
    (by decide) (by decide) rfl rfl (by decide) 0 0 [("other", "x")]
    ⟨50, 50, "name"⟩ rfl rfl rfl

theorem C6_addField_formula_and_bounds_witness :
    handleTemplateFieldAdd true [] testEvent (some "name")
      = [] ++ [⟨100 * (testEvent.clientX - testEvent.rectLeft) / testEvent.rectWidth,
          100 * (testEvent.clientY - testEvent.rectTop) / testEvent.rectHeight,
          "name"⟩] ∧
    0 ≤ (clickXY testEvent).1 ∧ (clickXY testEvent).1 ≤ 100 ∧
    0 ≤ (clickXY testEvent).2 ∧ (clickXY testEvent).2 ≤ 100 :=
  C6_addField_formula_and_bounds testEvent [] "name" (by decide)
    (by norm_num [testEvent]) (by norm_num [testEvent])
    (by norm_num [testEvent]) (by norm_num [testEvent])

theorem C7_one_output_per_row_named_witness :
    (generatePDFs testEnv (some [0]) testRows testFields).outputs.length
        = testRows.length ∧
    (generatePDFs testEnv (some [0]) testRows testFields).outputs.map
        Output.name
      = testRows.map (fun r => "generated_" ++ firstColumnValue r ++ ".pdf") :=
  C7_one_output_per_row_named testEnv [0] 612 792 [] testRows testFields
    (by decide) (by decide) rfl rfl (by decide) (by decide)

theorem C8_click_noop_outside_template_mode_witness :
    (pageClick testState testEvent (some "x")).templateFields
        = testState.templateFields ∧
    handleTemplateFieldAdd testState.isTemplateMode testState.templateFields
        testEvent (some "x")
      = testState.templateFields :=
  C8_click_noop_outside_template_mode testState testEvent (some "x") rfl

theorem C9_upload_outside_template_mode_keeps_bytes_witness :
    (onDrop testState [⟨"new.pdf", [9]⟩]).templatePdfBytes
      = testState.templatePdfBytes :=
  C9_upload_outside_template_mode_keeps_bytes testState [⟨"new.pdf", [9]⟩] rfl

theorem C10_falsy_value_equals_missing_witness :
    stampText [("name", ""), ("id", "7")] "name" = "" ∧
    stampDraws 612 792 testFields [("name", ""), ("id", "7")]
      = stampDraws 612 792 testFields
          (removeColumn [("name", ""), ("id", "7")] "name") :=
  C10_falsy_value_equals_missing 612 792 testFields
    [("name", ""), ("id", "7")] "name" rfl

end PDFEditor
